import Mathlib

/-!
# Game_Scene: a shallow embedding of `flappy/code/Game_Scene.cpp`

The scene class of the game is embedded as a record `Game_Scene` holding the
members declared in `Game_Scene.hpp`, and every method becomes a function on
that record.

Conventions of the embedding:

* `float` values are rationals; the claims settled here are about control flow
  and exact small constants, not about rounding.
* `unsigned` values are naturals, with arithmetic reduced modulo `2^32`.
* A `Sprite *` member is the index of the sprite in the `sprites` list (the
  list only ever grows by `push_back`, so an index names the same sprite for
  the whole life of the scene).
* What a method reads from a collaborator (clock, graphics context, texture
  decoder, random generator, canvas) is passed in as an argument; what it asks
  of a collaborator (texture requests, uploads, scene changes) is appended to
  the `host` log carried in the record.
-/

namespace Flappy

/-! ## Enumerations of `Game_Scene.hpp` -/

/-- Coarse scene state, `enum State`. -/
inductive State where
  | LOADING
  | RUNNING
  | ERROR
  deriving DecidableEq, Repr

/-- Game state while the scene is RUNNING, `enum Gameplay_State`. -/
inductive Gameplay_State where
  | UNINITIALIZED
  | WAITING_TO_START
  | PLAYING
  deriving DecidableEq, Repr

/-- The identifiers `ID(loading)`, `ID(hbar)`, ... used as texture keys. -/
inductive TexId where
  | loading
  | hbar
  | flappy
  | top
  | bottom
  | exit
  deriving DecidableEq, Repr

/-! ## Unsigned arithmetic -/

/-- Range of `unsigned`. -/
def UMAX : Nat := 2 ^ 32

/-- Sum of two `unsigned` values. -/
def uadd (a b : Nat) : Nat := (a + b) % UMAX

/-- Difference of two `unsigned` values (wraps below zero). -/
def usub (a b : Nat) : Nat := (a % UMAX + UMAX - b % UMAX) % UMAX

/-! ## Textures -/

/-- A decoded texture, as far as the scene looks at it: its dimensions. -/
structure Texture_2D where
  width : ℚ
  height : ℚ
  deriving DecidableEq, Repr

/-- The type `std::shared_ptr< Texture_2D >`: `none` is the null handle. -/
abbrev Texture_Handle := Option Texture_2D

/-- An item of `textures_data`: identifier and path. -/
structure Texture_Data where
  id : TexId
  path : String
  deriving DecidableEq, Repr

/-- The table `Game_Scene::textures_data`. -/
def textures_data : List Texture_Data :=
  [ ⟨TexId.loading, "game-scene/loading.png"⟩,
    ⟨TexId.hbar, "game-scene/horizontal-bar.png"⟩,
    ⟨TexId.flappy, "game-scene/flappy.png"⟩,
    ⟨TexId.top, "game-scene/top.png"⟩,
    ⟨TexId.bottom, "game-scene/bottom.png"⟩,
    ⟨TexId.exit, "game-scene/exit.png"⟩ ]

/-- The count `Game_Scene::textures_count`, `sizeof(textures_data) / sizeof(Texture_Data)`. -/
def textures_count : Nat := textures_data.length

/-- The type `std::map< Id, Texture_Handle >`: `entry id = none` when the map has
no item under `id`, `some none` when it has one holding a null handle. -/
structure Texture_Map where
  entry : TexId → Option Texture_Handle

namespace Texture_Map

/-- Every key the scene ever uses. -/
def keys : List TexId :=
  [TexId.loading, TexId.hbar, TexId.flappy, TexId.top, TexId.bottom, TexId.exit]

/-- The map a scene is constructed with. -/
def empty : Texture_Map := ⟨fun _ => none⟩

/-- Number of items, `textures.size ()`. -/
def size (m : Texture_Map) : Nat := keys.countP (fun i => (m.entry i).isSome)

/-- The map after `textures[id]` is evaluated: `operator[]` adds an item with a
null handle when there is none under `id`. -/
def touch (m : Texture_Map) (id : TexId) : Texture_Map :=
  ⟨fun i => if i = id then some ((m.entry id).getD none) else m.entry i⟩

/-- The handle that `textures[id]` refers to. -/
def handle (m : Texture_Map) (id : TexId) : Texture_Handle := (m.entry id).getD none

/-- The map after `textures[id] = h`. -/
def assign (m : Texture_Map) (id : TexId) (h : Texture_Handle) : Texture_Map :=
  ⟨fun i => if i = id then some h else m.entry i⟩

end Texture_Map

/-! ## Sprites (`Sprite.hpp` is not among the sources) -/

/-- Horizontal part of an anchor. -/
inductive HAnchor where
  | LEFT
  | CENTER
  | RIGHT
  deriving DecidableEq, Repr

/-- Vertical part of an anchor. -/
inductive VAnchor where
  | BOTTOM
  | CENTER
  | TOP
  deriving DecidableEq, Repr

/-- Modelled from the spec: the class `Sprite` of `Sprite.hpp`, which is missing.
A sprite wraps one texture (shared, possibly absent) and carries a position, a
scale factor, a velocity and an anchor corner. -/
structure Sprite where
  texture : Texture_Handle
  anchor_h : HAnchor
  anchor_v : VAnchor
  position_x : ℚ
  position_y : ℚ
  scale : ℚ
  speed_x : ℚ
  speed_y : ℚ
  deriving DecidableEq, Repr

namespace Sprite

/-- Modelled from the spec: the constructor `Sprite(texture)` of the missing
`Sprite.hpp`; a fresh sprite sits at the origin, unscaled, at rest, anchored at
its centre. -/
def new (t : Texture_Handle) : Sprite :=
  ⟨t, HAnchor.CENTER, VAnchor.CENTER, 0, 0, 1, 0, 0⟩

instance : Inhabited Sprite := ⟨new none⟩

/-- Modelled from the spec: `get_width` of the missing `Sprite.hpp`; the size of
a sprite is its texture's dimensions times its scale, and a sprite with no
texture has no extent. -/
def get_width (s : Sprite) : ℚ :=
  match s.texture with
  | some t => t.width * s.scale
  | none => 0

/-- Modelled from the spec: `get_height` of the missing `Sprite.hpp`, as for
`get_width`. -/
def get_height (s : Sprite) : ℚ :=
  match s.texture with
  | some t => t.height * s.scale
  | none => 0

/-- Modelled from the spec: `get_position_x` of the missing `Sprite.hpp`. -/
def get_position_x (s : Sprite) : ℚ := s.position_x

/-- Modelled from the spec: `get_position_y` of the missing `Sprite.hpp`. -/
def get_position_y (s : Sprite) : ℚ := s.position_y

/-- Modelled from the spec: `set_position` of the missing `Sprite.hpp`. -/
def set_position (s : Sprite) (x y : ℚ) : Sprite := { s with position_x := x, position_y := y }

/-- Modelled from the spec: `set_position_x` of the missing `Sprite.hpp`. -/
def set_position_x (s : Sprite) (x : ℚ) : Sprite := { s with position_x := x }

/-- Modelled from the spec: `set_position_y` of the missing `Sprite.hpp`. -/
def set_position_y (s : Sprite) (y : ℚ) : Sprite := { s with position_y := y }

/-- Modelled from the spec: `set_speed_x` of the missing `Sprite.hpp`. -/
def set_speed_x (s : Sprite) (v : ℚ) : Sprite := { s with speed_x := v }

/-- Modelled from the spec: `set_speed_y` of the missing `Sprite.hpp`. -/
def set_speed_y (s : Sprite) (v : ℚ) : Sprite := { s with speed_y := v }

/-- Modelled from the spec: `set_scale` of the missing `Sprite.hpp`. -/
def set_scale (s : Sprite) (k : ℚ) : Sprite := { s with scale := k }

/-- Modelled from the spec: `set_anchor` of the missing `Sprite.hpp`. -/
def set_anchor (s : Sprite) (v : VAnchor) (h : HAnchor) : Sprite :=
  { s with anchor_h := h, anchor_v := v }

/-- Modelled from the spec: `update` of the missing `Sprite.hpp`; the position
advances by velocity times the elapsed time. -/
def update (s : Sprite) (time : ℚ) : Sprite :=
  { s with position_x := s.position_x + s.speed_x * time,
           position_y := s.position_y + s.speed_y * time }

/-- Left edge of the bounding rectangle. -/
def left (s : Sprite) : ℚ :=
  match s.anchor_h with
  | HAnchor.LEFT => s.position_x
  | HAnchor.CENTER => s.position_x - s.get_width / 2
  | HAnchor.RIGHT => s.position_x - s.get_width

/-- Bottom edge of the bounding rectangle. -/
def bottom (s : Sprite) : ℚ :=
  match s.anchor_v with
  | VAnchor.BOTTOM => s.position_y
  | VAnchor.CENTER => s.position_y - s.get_height / 2
  | VAnchor.TOP => s.position_y - s.get_height

/-- Right edge of the bounding rectangle. -/
def right (s : Sprite) : ℚ := s.left + s.get_width

/-- Top edge of the bounding rectangle. -/
def top (s : Sprite) : ℚ := s.bottom + s.get_height

/-- Modelled from the spec: `intersects` of the missing `Sprite.hpp`; true iff
the axis-aligned bounding rectangles of the two sprites have a common point. -/
def intersects (a b : Sprite) : Bool :=
  decide (a.left ≤ b.right) && decide (b.left ≤ a.right) &&
  decide (a.bottom ≤ b.top) && decide (b.bottom ≤ a.top)

end Sprite

/-! ## Collaborators -/

/-- The class `basics::Timer`, as the scene uses it: the clock reading at the last reset. -/
structure Timer where
  start : ℚ
  deriving DecidableEq, Repr

/-- The call `timer.get_elapsed_seconds ()`, when the clock reads `now`. -/
def Timer.get_elapsed_seconds (t : Timer) (now : ℚ) : ℚ := now - t.start

/-- The call `timer.reset ()`, when the clock reads `now`. -/
def Timer.reset (_t : Timer) (now : ℚ) : Timer := ⟨now⟩

/-- What the scene has asked of its collaborators so far. -/
structure Host where
  /-- Textures asked of `Texture_2D::create`, oldest first. -/
  requested : List TexId
  /-- Textures handed to the graphics context by `context->add`, oldest first. -/
  uploaded : List TexId
  /-- How many times `director.run_scene` was called with a new `Menu_Scene`. -/
  menu_runs : Nat
  deriving DecidableEq, Repr

/-- Kind tag of an event. -/
inductive Event_Id where
  | touch_started
  | touch_moved
  | touch_ended
  | other
  deriving DecidableEq, Repr

/-- An input event: its kind and the properties `x` and `y` it carries. -/
structure Event where
  id : Event_Id
  x : ℚ
  y : ℚ
  deriving DecidableEq, Repr

/-- What one `update` call finds in its collaborators. -/
structure Tick where
  /-- Clock reading. -/
  now : ℚ
  /-- Whether `director.lock_graphics_context ()` yields a context. -/
  context : Bool
  /-- Result of `Texture_2D::create (id, context, path)`. -/
  create : TexId → String → Texture_Handle
  /-- Value returned by `rand ()`, in the range `0 .. RAND_MAX`. -/
  rand : Nat

/-! ## The scene -/

/-- The members of `class Game_Scene`, followed by the log of requests to collaborators. -/
structure Game_Scene where
  state : State
  gameplay : Gameplay_State
  suspended : Bool
  canvas_width : Nat
  canvas_height : Nat
  textures : Texture_Map
  sprites : List Sprite
  top_border : Nat
  bottom_border : Nat
  bird : Nat
  toppipe : Nat
  bottompipe : Nat
  exit_x : Nat
  pipepos : ℚ
  birdpos : ℚ
  birdjump : Bool
  go : Bool
  speed : ℚ
  timer : Timer
  host : Host

/-- The members that the constructor leaves without a value. -/
structure Uninit where
  top_border : Nat
  bottom_border : Nat
  bird : Nat
  toppipe : Nat
  bottompipe : Nat
  exit_x : Nat
  birdjump : Bool

namespace Game_Scene

/-- The sprite a `Sprite *` member points to. -/
def sprite (s : Game_Scene) (p : Nat) : Sprite := s.sprites.getD p default

/-- A call of a mutating method through a `Sprite *` member. -/
def poke (s : Game_Scene) (p : Nat) (f : Sprite → Sprite) : Game_Scene :=
  { s with sprites := s.sprites.set p (f (s.sprites.getD p default)) }

/-- The method `Game_Scene::initialize` (lines 74-81). -/
def initialise (s : Game_Scene) : Game_Scene :=
  { s with state := State.LOADING, suspended := true, gameplay := Gameplay_State.UNINITIALIZED }

/-- The constructor `Game_Scene::Game_Scene` (lines 45-67), run when the clock
reads `now`; `u` gives the members it does not set. -/
def construct (now : ℚ) (u : Uninit) : Game_Scene :=
  initialise
    { state := State.LOADING
      gameplay := Gameplay_State.UNINITIALIZED
      suspended := true
      canvas_width := 720
      canvas_height := 1280
      textures := Texture_Map.empty
      sprites := []
      top_border := u.top_border
      bottom_border := u.bottom_border
      bird := u.bird
      toppipe := u.toppipe
      bottompipe := u.bottompipe
      exit_x := u.exit_x
      pipepos := ((1280 / 2 : Nat) : ℚ)
      birdpos := ((1280 / 2 : Nat) : ℚ)
      birdjump := u.birdjump
      go := false
      speed := 3
      timer := ⟨now⟩
      host := ⟨[], [], 0⟩ }

/-- The method `Game_Scene::suspend` (lines 85-88). -/
def suspend (s : Game_Scene) : Game_Scene := { s with suspended := true }

/-- The method `Game_Scene::resume` (lines 92-95). -/
def resume (s : Game_Scene) : Game_Scene := { s with suspended := false }

/-- The method `Game_Scene::start_playing` (lines 287-290). -/
def start_playing (s : Game_Scene) : Game_Scene := { s with gameplay := Gameplay_State.PLAYING }

/-- The test of line 114 on the touch position. -/
def over_exit (s : Game_Scene) (touchX touchY : ℚ) : Bool :=
  decide (touchX > (s.sprite s.exit_x).get_position_x) &&
  decide (touchX < (s.sprite s.exit_x).get_width) &&
  decide (touchY > (s.sprite s.exit_x).get_position_y) &&
  decide (touchY < (s.sprite s.exit_x).get_height)

/-- The method `Game_Scene::handle` (lines 99-135), when the clock reads `now`.
The cases of the switch fall through into one another; those of `touch-moved`
and `touch-ended` are empty. -/
def handle (s : Game_Scene) (event : Event) (now : ℚ) : Game_Scene :=
  if s.state = State.RUNNING then
    if s.gameplay = Gameplay_State.WAITING_TO_START then
      s.start_playing
    else
      match event.id with
      | Event_Id.touch_started =>
        if s.over_exit event.x event.y then
          { s with host := { s.host with menu_runs := s.host.menu_runs + 1 } }
        else
          { s with birdjump := true, go := true, timer := s.timer.reset now }
      | Event_Id.touch_moved => s
      | Event_Id.touch_ended => s
      | Event_Id.other => s
  else s

/-- The method `Game_Scene::create_sprites` (lines 225-262). Each `textures[id]`
goes through `operator[]`; the second `textures[ID(hbar)]` finds the item the
first one left and changes nothing. The sprites are configured before or
after `push_back` alike, the list holding shared pointers. -/
def create_sprites (s : Game_Scene) : Game_Scene :=
  let t1 := s.textures.touch TexId.hbar
  let top_bar := ((Sprite.new (t1.handle TexId.hbar)).set_anchor VAnchor.TOP HAnchor.LEFT).set_position
    0 (s.canvas_height : ℚ)
  let bottom_bar := ((Sprite.new (t1.handle TexId.hbar)).set_anchor VAnchor.BOTTOM HAnchor.LEFT).set_position
    0 0
  let t2 := t1.touch TexId.flappy
  let bird_handle := Sprite.new (t2.handle TexId.flappy)
  let t3 := t2.touch TexId.top
  let top_handle := Sprite.new (t3.handle TexId.top)
  let t4 := t3.touch TexId.bottom
  let bottom_handle := Sprite.new (t4.handle TexId.bottom)
  let t5 := t4.touch TexId.exit
  let exit_handle := Sprite.new (t5.handle TexId.exit)
  let n := s.sprites.length
  let s1 : Game_Scene :=
    { s with
      textures := t5
      sprites := s.sprites ++ [top_bar, bottom_bar, bird_handle, top_handle, bottom_handle, exit_handle]
      top_border := n
      bottom_border := n + 1
      bird := n + 2
      toppipe := n + 3
      bottompipe := n + 4
      exit_x := n + 5 }
  let s2 := s1.poke (n + 5)
    (fun e => e.set_position ((usub s.canvas_width 100 : Nat) : ℚ) ((usub s.canvas_height 100 : Nat) : ℚ))
  s2.poke (n + 5) (fun e => e.set_scale (1 / 5))

/-- The method `Game_Scene::restart_game` (lines 268-283). The calls through
`bird`, `toppipe` and `bottompipe` change sprites only, so the members read
along the way (`birdpos`, `canvas_width`, `pipepos`, the pointers) are those of `s`. -/
def restart_game (s : Game_Scene) : Game_Scene :=
  let s1 := s.poke s.bird (fun b => b.set_position (b.get_width * 3) s.birdpos)
  let s2 := s1.poke s.bird (fun b => b.set_speed_y 0)
  let s3 := s2.poke s.bird (fun b => b.set_scale (9 / 2))
  let s4 := s3.poke s.toppipe
    (fun p => p.set_position ((s.canvas_width : ℚ) - p.get_width) (s.pipepos + 400))
  let s5 := s4.poke s.toppipe (fun p => p.set_speed_x 0)
  let s6 := s5.poke s.bottompipe
    (fun p => p.set_position ((s.canvas_width : ℚ) - p.get_width) (s.pipepos - 400))
  let s7 := s6.poke s.bottompipe (fun p => p.set_speed_x 0)
  { s7 with pipepos := ((s.canvas_height / 2 : Nat) : ℚ), gameplay := Gameplay_State.WAITING_TO_START }

/-- The item `textures_data[textures.size ()]` of line 202. -/
def next_texture (s : Game_Scene) : Texture_Data :=
  textures_data.getD s.textures.size ⟨TexId.loading, ""⟩

/-- The method `Game_Scene::load_textures` (lines 189-221). -/
def load_textures (s : Game_Scene) (t : Tick) : Game_Scene :=
  if s.textures.size < textures_count then
    if t.context then
      let texture_data := s.next_texture
      let texture := t.create texture_data.id texture_data.path
      let s1 : Game_Scene :=
        { s with
          textures := s.textures.assign texture_data.id texture
          host := { s.host with requested := s.host.requested ++ [texture_data.id] } }
      if texture.isSome then
        { s1 with host := { s1.host with uploaded := s1.host.uploaded ++ [texture_data.id] } }
      else
        { s1 with state := State.ERROR }
    else s
  else if s.timer.get_elapsed_seconds t.now > 1 then
    { (s.create_sprites.restart_game) with state := State.RUNNING }
  else s

/-- The new pipe centre computed at line 321 from the value `r` of `rand ()`. -/
def new_pipepos (canvas_height r : Nat) : Nat :=
  uadd (usub (canvas_height / 2) 200)
    ((r % UMAX) % usub (uadd (canvas_height / 2) 200) (usub (canvas_height / 2) 200))

/-- Lines 316-317 of `Game_Scene::update_ai`: both pipes move left by `speed`. -/
def scroll (s : Game_Scene) : Game_Scene :=
  (s.poke s.toppipe (fun p => p.set_position_x (p.get_position_x - s.speed))).poke s.bottompipe
    (fun p => p.set_position_x (p.get_position_x - s.speed))

/-- Lines 321-327 of `Game_Scene::update_ai`: a new centre is drawn and stored in
`pipepos`, and both pipes go back to the right edge around it; `r` is what
`rand ()` returns. -/
def recycle (s2 : Game_Scene) (r : Nat) : Game_Scene :=
  let pipepos : ℚ := ((new_pipepos s2.canvas_height r : Nat) : ℚ)
  let s3 : Game_Scene := { s2 with pipepos := pipepos }
  let s4 := s3.poke s2.toppipe (fun p => p.set_position_x (s2.canvas_width : ℚ))
  let s5 := s4.poke s2.toppipe (fun p => p.set_position_y (pipepos + 400))
  let s6 := s5.poke s2.bottompipe (fun p => p.set_position_x (s2.canvas_width : ℚ))
  s6.poke s2.bottompipe (fun p => p.set_position_y (pipepos - 400))

/-- The method `Game_Scene::update_ai` (lines 314-329); `r` is what `rand ()` returns. -/
def update_ai (s : Game_Scene) (r : Nat) : Game_Scene :=
  if (s.scroll.sprite s.scroll.toppipe).get_position_x < 0 then
    s.scroll.recycle r
  else s.scroll

/-- The collision test of lines 352-358. -/
def collides (s : Game_Scene) : Bool :=
  (s.sprite s.bird).intersects (s.sprite s.top_border) ||
  (s.sprite s.bird).intersects (s.sprite s.bottom_border) ||
  (s.sprite s.bird).intersects (s.sprite s.toppipe) ||
  (s.sprite s.bird).intersects (s.sprite s.bottompipe)

/-- Lines 338-350 of `Game_Scene::update_user`, when the clock reads `now`: the
bird moves up or down and `birdjump` is cleared once the timer passes one second. -/
def move_user (s : Game_Scene) (now : ℚ) : Game_Scene :=
  let s1 :=
    if s.birdjump then
      s.poke s.bird (fun b => b.set_position_y (b.get_position_y + s.speed))
    else
      s.poke s.bird (fun b => b.set_position_y (b.get_position_y - s.speed - 2))
  if s1.timer.get_elapsed_seconds now > 1 then { s1 with birdjump := false } else s1

/-- The method `Game_Scene::update_user` (lines 336-363), when the clock reads `now`. -/
def update_user (s : Game_Scene) (now : ℚ) : Game_Scene :=
  if (s.move_user now).collides then
    restart_game { (s.move_user now) with go := false }
  else s.move_user now

/-- Lines 298-301 of `Game_Scene::run_simulation`: every sprite is updated. -/
def integrate (s : Game_Scene) (time : ℚ) : Game_Scene :=
  { s with sprites := s.sprites.map (fun sp => sp.update time) }

/-- The method `Game_Scene::run_simulation` (lines 294-308). -/
def run_simulation (s : Game_Scene) (time : ℚ) (t : Tick) : Game_Scene :=
  if (s.integrate time).go then
    ((s.integrate time).update_ai t.rand).update_user t.now
  else s.integrate time

/-- The method `Game_Scene::update` (lines 139-147). -/
def update (s : Game_Scene) (time : ℚ) (t : Tick) : Game_Scene :=
  if !s.suspended then
    match s.state with
    | State.LOADING => s.load_textures t
    | State.RUNNING => s.run_simulation time t
    | State.ERROR => s
  else s

/-- The method `Game_Scene::render_loading` (lines 367-380): drawing leaves the
scene alone, but `textures[ID(loading)]` is evaluated. -/
def render_loading (s : Game_Scene) : Game_Scene :=
  { s with textures := s.textures.touch TexId.loading }

/-- The method `Game_Scene::render_playfield` (lines 385-391): drawing only. -/
def render_playfield (s : Game_Scene) : Game_Scene := s

/-- The method `Game_Scene::render` (lines 151-180); `canvas` tells whether a
canvas could be obtained or created. -/
def render (s : Game_Scene) (canvas : Bool) : Game_Scene :=
  if !s.suspended then
    if canvas then
      match s.state with
      | State.LOADING => s.render_loading
      | State.RUNNING => s.render_playfield
      | State.ERROR => s
    else s
  else s

end Game_Scene

/-! ## Sequences of calls from the host -/

/-- A call the host can make on the scene. -/
inductive Call where
  | init
  | suspend
  | resume
  | handle (event : Event) (now : ℚ)
  | update (time : ℚ) (t : Tick)
  | render (canvas : Bool)

/-- The scene after one call. -/
def Game_Scene.call (s : Game_Scene) : Call → Game_Scene
  | Call.init => s.initialise
  | Call.suspend => s.suspend
  | Call.resume => s.resume
  | Call.handle e now => s.handle e now
  | Call.update time t => s.update time t
  | Call.render canvas => s.render canvas

/-- The scene after a sequence of calls. -/
def Game_Scene.run (s : Game_Scene) (cs : List Call) : Game_Scene :=
  cs.foldl Game_Scene.call s

/-- Whether a call is an `update` or a `handle`. -/
def Call.update_or_handle : Call → Bool
  | Call.handle _ _ => true
  | Call.update _ _ => true
  | _ => false

/-- The first item of the asset table whose texture is not loaded yet: none
under its identifier, or a null handle. -/
def first_unloaded (s : Game_Scene) : Option Texture_Data :=
  textures_data.find? (fun d => (s.textures.handle d.id).isNone)

/-- Every asset of the table has a loaded texture. -/
def all_fulfilled (s : Game_Scene) : Prop :=
  ∀ d ∈ textures_data, (s.textures.handle d.id).isSome = true

/-! ## Concrete collaborators and scenes used in the examples -/

/-- Values for the members the constructor leaves unset. -/
def sample_uninit : Uninit := ⟨0, 0, 0, 0, 0, 0, false⟩

/-- A decoder for which every load succeeds: the bar is 720 x 700, the upper pipe
720 x 20, every other texture 10 x 20. -/
def good_create : TexId → String → Texture_Handle
  | TexId.hbar, _ => some ⟨720, 700⟩
  | TexId.top, _ => some ⟨720, 20⟩
  | _, _ => some ⟨10, 20⟩

/-- A decoder for which every load fails. -/
def bad_create : TexId → String → Texture_Handle := fun _ _ => none

/-- A tick with a graphics context and a working decoder, when the clock reads `now`. -/
def good_tick (now : ℚ) : Tick := ⟨now, true, good_create, 7⟩

/-- A tick with a graphics context and a failing decoder. -/
def bad_tick : Tick := ⟨0, true, bad_create, 7⟩

/-- A scene just constructed (clock at 0) and resumed. -/
def fresh : Game_Scene := (Game_Scene.construct 0 sample_uninit).resume

/-- The scene `fresh` after six updates with a context and a working decoder,
all while the clock still reads 0: the six textures are loaded. -/
def loaded : Game_Scene := fresh.run (List.replicate 6 (Call.update 0 (good_tick 0)))

/-- The scene `loaded` after one more update, made when the clock reads 5: the
sprites exist and a round waits to start. -/
def running : Game_Scene := loaded.update 0 (good_tick 5)

/-- A pointer-down event at the origin of the canvas. -/
def tap : Event := ⟨Event_Id.touch_started, 0, 0⟩

/-- A pointer-move event at the origin of the canvas. -/
def drag : Event := ⟨Event_Id.touch_moved, 0, 0⟩

/-- The scene `running` after a first pointer-down: the round is started. -/
def started : Game_Scene := running.handle tap 6

/-- The scene `started` after a second pointer-down: the bird jumps and the
pipes scroll. -/
def playing : Game_Scene := started.handle tap 6

/-- The scene on which `update_user` tests for a collision, in an `update` of a
RUNNING scene whose `go` is set. -/
def Game_Scene.moved (s : Game_Scene) (time : ℚ) (t : Tick) : Game_Scene :=
  ((s.integrate time).update_ai t.rand).move_user t.now

/-- The scene that `update_user` hands to `restart_game` in the update of
`playing` made when the clock reads six and a half: the pipes were just
recycled with `rand ()` returning 7, and the bird hit the top border. -/
def collided : Game_Scene := { (playing.moved 0 (good_tick (13 / 2))) with go := false }

/-- Whether the point `(x, y)` lies in the bounding rectangle of a sprite. -/
def Sprite.contains (sp : Sprite) (x y : ℚ) : Bool :=
  decide (sp.left ≤ x) && decide (x ≤ sp.right) && decide (sp.bottom ≤ y) && decide (y ≤ sp.top)

/-- A pointer-down event at (620.5, 1180.5), half a unit right of and above the
position of the exit sprite. -/
def exit_tap : Event := ⟨Event_Id.touch_started, 1241 / 2, 2361 / 2⟩

/-- The scene `running` after the host calls `initialize` and `resume` again. -/
def reopened : Game_Scene := running.initialise.resume

/-! ## Suspension and the error state -/

theorem update_suspended (s : Game_Scene) (time : ℚ) (t : Tick) (h : s.suspended = true) :
    s.update time t = s := by
  simp [Game_Scene.update, h]

theorem render_suspended (s : Game_Scene) (canvas : Bool) (h : s.suspended = true) :
    s.render canvas = s := by
  simp [Game_Scene.render, h]

/-- C1: while the scene is suspended, an `update` followed by a `render` gives
back the very same scene: every member (coarse state, gameplay, textures,
sprites, pipepos, birdjump, go, timer) and the log of requests are unchanged,
whatever the frame time and the collaborators are. -/
theorem C1_suspended_frame_is_noop (s : Game_Scene) (time : ℚ) (t : Tick) (canvas : Bool)
    (h : s.suspended = true) : (s.update time t).render canvas = s := by
  rw [update_suspended s time t h, render_suspended s canvas h]

/-- C1 at the scene just constructed, which is suspended. -/
theorem C1_suspended_frame_is_noop_witness :
    ((Game_Scene.construct 0 sample_uninit).update (1 / 60) (good_tick 5)).render true
      = Game_Scene.construct 0 sample_uninit :=
  C1_suspended_frame_is_noop (Game_Scene.construct 0 sample_uninit) (1 / 60) (good_tick 5) true rfl

theorem update_error (s : Game_Scene) (time : ℚ) (t : Tick) (h : s.state = State.ERROR) :
    s.update time t = s := by
  unfold Game_Scene.update
  split
  · rw [h]
  · rfl

theorem handle_error (s : Game_Scene) (e : Event) (now : ℚ) (h : s.state = State.ERROR) :
    s.handle e now = s := by
  simp [Game_Scene.handle, h]

theorem run_error (cs : List Call) :
    ∀ s : Game_Scene, s.state = State.ERROR → (∀ c ∈ cs, c.update_or_handle = true) →
      s.run cs = s := by
  induction cs with
  | nil => intro s _ _; rfl
  | cons c cs ih =>
    intro s hs hc
    have hstep : s.call c = s := by
      have hc0 := hc c (List.mem_cons_self c cs)
      cases c with
      | handle e now => exact handle_error s e now hs
      | update time t => exact update_error s time t hs
      | init => simp [Call.update_or_handle] at hc0
      | suspend => simp [Call.update_or_handle] at hc0
      | resume => simp [Call.update_or_handle] at hc0
      | render canvas => simp [Call.update_or_handle] at hc0
    have hrest := ih s hs (fun c' hc' => hc c' (List.mem_cons_of_mem c hc'))
    show (s.call c).run cs = s
    rw [hstep]
    exact hrest

/-- C2: in a LOADING scene that is not suspended and still has textures to load,
an `update` that gets a graphics context and whose texture load fails leaves
the coarse state ERROR; and from any scene whose coarse state is ERROR, every
sequence of `update` and `handle` calls (any frame times, any events, any
collaborators) ends with the coarse state ERROR. -/
theorem C2_load_failure_is_terminal (s : Game_Scene) (time : ℚ) (t : Tick)
    (hsusp : s.suspended = false) (hload : s.state = State.LOADING)
    (hleft : s.textures.size < textures_count) (hctx : t.context = true)
    (hfail : t.create s.next_texture.id s.next_texture.path = none) :
    (s.update time t).state = State.ERROR ∧
    ∀ (e : Game_Scene) (cs : List Call), e.state = State.ERROR →
      (∀ c ∈ cs, c.update_or_handle = true) → (e.run cs).state = State.ERROR := by
  constructor
  · simp [Game_Scene.update, hsusp, hload, Game_Scene.load_textures, hleft, hctx, hfail]
  · intro e cs he hcs
    rw [run_error cs e he hcs]
    exact he

/-- C2 at the fresh scene with a decoder that fails. -/
theorem C2_load_failure_is_terminal_witness :
    (fresh.update 0 bad_tick).state = State.ERROR ∧
    ∀ (e : Game_Scene) (cs : List Call), e.state = State.ERROR →
      (∀ c ∈ cs, c.update_or_handle = true) → (e.run cs).state = State.ERROR :=
  C2_load_failure_is_terminal fresh 0 bad_tick rfl rfl (by decide) rfl rfl

/-! ## The asset loader -/

/-- C3: evaluation at a scene that was constructed, resumed and rendered once
before any `update`. The scene is LOADING with textures still to load and the
first asset of the table without a texture is `loading`; yet the `update` that
gets a graphics context requests `hbar`, and `loading` keeps a null handle. -/
theorem C3_render_before_update_skips_loading :
    (fresh.render true).state = State.LOADING ∧
    (fresh.render true).suspended = false ∧
    (fresh.render true).textures.size < textures_count ∧
    (first_unloaded (fresh.render true)).map Texture_Data.id = some TexId.loading ∧
    ((fresh.render true).update 0 (good_tick 0)).host.requested = [TexId.hbar] ∧
    ((fresh.render true).update 0 (good_tick 0)).textures.handle TexId.loading = none ∧
    (first_unloaded ((fresh.render true).update 0 (good_tick 0))).map Texture_Data.id
      = some TexId.loading := by
  decide

theorem size_of_all_fulfilled (s : Game_Scene) (h : all_fulfilled s) :
    s.textures.size = textures_count := by
  have h1 := h ⟨TexId.loading, "game-scene/loading.png"⟩ (by simp [textures_data])
  have h2 := h ⟨TexId.hbar, "game-scene/horizontal-bar.png"⟩ (by simp [textures_data])
  have h3 := h ⟨TexId.flappy, "game-scene/flappy.png"⟩ (by simp [textures_data])
  have h4 := h ⟨TexId.top, "game-scene/top.png"⟩ (by simp [textures_data])
  have h5 := h ⟨TexId.bottom, "game-scene/bottom.png"⟩ (by simp [textures_data])
  have h6 := h ⟨TexId.exit, "game-scene/exit.png"⟩ (by simp [textures_data])
  simp only [Texture_Map.handle] at h1 h2 h3 h4 h5 h6
  have key : ∀ o : Option Texture_Handle, (o.getD none).isSome = true → o.isSome = true := by
    intro o ho
    cases o with
    | none => simp at ho
    | some v => rfl
  simp [Texture_Map.size, Texture_Map.keys, textures_count, textures_data,
    key _ h1, key _ h2, key _ h3, key _ h4, key _ h5, key _ h6]

theorem load_textures_full (s : Game_Scene) (t : Tick) (h : s.textures.size = textures_count) :
    s.load_textures t =
      if s.timer.get_elapsed_seconds t.now > 1 then
        { (s.create_sprites.restart_game) with state := State.RUNNING }
      else s := by
  simp [Game_Scene.load_textures, h]

theorem update_full (s : Game_Scene) (time : ℚ) (t : Tick)
    (hsusp : s.suspended = false) (hload : s.state = State.LOADING)
    (hsize : s.textures.size = textures_count) :
    s.update time t =
      if s.timer.get_elapsed_seconds t.now > 1 then
        { (s.create_sprites.restart_game) with state := State.RUNNING }
      else s := by
  have hupd : s.update time t = s.load_textures t := by
    simp [Game_Scene.update, hsusp, hload]
  rw [hupd, load_textures_full s t hsize]

/-- C4 (amended): in a LOADING scene that is not suspended and in which every
asset of the table has a loaded texture, one `update` moves the coarse state
to RUNNING if and only if the timer's elapsed time is more than 1 second
(`elapsed > 1`); with `elapsed ≤ 1` the update gives back the same scene, so
the coarse state stays LOADING and no sprite is created. -/
theorem C4_running_iff_elapsed_gt_one (s : Game_Scene) (time : ℚ) (t : Tick)
    (hsusp : s.suspended = false) (hload : s.state = State.LOADING) (hfull : all_fulfilled s) :
    ((s.update time t).state = State.RUNNING ↔ s.timer.get_elapsed_seconds t.now > 1) ∧
    (s.timer.get_elapsed_seconds t.now ≤ 1 → s.update time t = s) := by
  rw [update_full s time t hsusp hload (size_of_all_fulfilled s hfull)]
  by_cases hel : s.timer.get_elapsed_seconds t.now > 1
  · simp [hel]
  · simp [hel, hload]

theorem loaded_all_fulfilled : all_fulfilled loaded := by
  intro d hd
  simp only [textures_data, List.mem_cons, List.mem_singleton, List.not_mem_nil, or_false] at hd
  rcases hd with h | h | h | h | h | h <;> subst h <;> decide

/-- C4 (amended) at the sample scene with its six textures loaded, timer reading 5 seconds. -/
theorem C4_running_iff_elapsed_gt_one_witness :
    ((loaded.update 0 (good_tick 5)).state = State.RUNNING
      ↔ loaded.timer.get_elapsed_seconds (good_tick 5).now > 1) ∧
    (loaded.timer.get_elapsed_seconds (good_tick 5).now ≤ 1 →
      loaded.update 0 (good_tick 5) = loaded) :=
  C4_running_iff_elapsed_gt_one loaded 0 (good_tick 5) (by decide) (by decide) loaded_all_fulfilled

/-- C4 (as stated, refuted): with every texture loaded and the timer reading
exactly 1 second (so `elapsed ≥ 1`), the update leaves the coarse state LOADING. -/
theorem C4_counterexample_elapsed_exactly_one :
    all_fulfilled loaded ∧ loaded.suspended = false ∧ loaded.state = State.LOADING ∧
    loaded.timer.get_elapsed_seconds (good_tick 1).now ≥ 1 ∧
    (loaded.update 0 (good_tick 1)).state = State.LOADING ∧
    (loaded.update 0 (good_tick 1)).state ≠ State.RUNNING := by
  have hstart : loaded.timer = ⟨0⟩ := by decide
  have hel : loaded.timer.get_elapsed_seconds (good_tick 1).now = 1 := by
    rw [hstart]; simp [Timer.get_elapsed_seconds, good_tick]
  have hsame : loaded.update 0 (good_tick 1) = loaded := by
    rw [update_full loaded 0 (good_tick 1) (by decide) (by decide)
      (size_of_all_fulfilled loaded loaded_all_fulfilled), hel]
    simp
  refine ⟨loaded_all_fulfilled, by decide, by decide, le_of_eq hel.symm, ?_, ?_⟩
  · rw [hsame]; decide
  · rw [hsame]; decide

/-! ## Members left alone by calls through sprite pointers -/

section poke
variable (s : Game_Scene) (p : Nat) (f : Sprite → Sprite)

@[simp] theorem poke_state : (s.poke p f).state = s.state := rfl
@[simp] theorem poke_gameplay : (s.poke p f).gameplay = s.gameplay := rfl
@[simp] theorem poke_suspended : (s.poke p f).suspended = s.suspended := rfl
@[simp] theorem poke_canvas_width : (s.poke p f).canvas_width = s.canvas_width := rfl
@[simp] theorem poke_canvas_height : (s.poke p f).canvas_height = s.canvas_height := rfl
@[simp] theorem poke_textures : (s.poke p f).textures = s.textures := rfl
@[simp] theorem poke_top_border : (s.poke p f).top_border = s.top_border := rfl
@[simp] theorem poke_bottom_border : (s.poke p f).bottom_border = s.bottom_border := rfl
@[simp] theorem poke_bird : (s.poke p f).bird = s.bird := rfl
@[simp] theorem poke_toppipe : (s.poke p f).toppipe = s.toppipe := rfl
@[simp] theorem poke_bottompipe : (s.poke p f).bottompipe = s.bottompipe := rfl
@[simp] theorem poke_exit_x : (s.poke p f).exit_x = s.exit_x := rfl
@[simp] theorem poke_pipepos : (s.poke p f).pipepos = s.pipepos := rfl
@[simp] theorem poke_birdpos : (s.poke p f).birdpos = s.birdpos := rfl
@[simp] theorem poke_birdjump : (s.poke p f).birdjump = s.birdjump := rfl
@[simp] theorem poke_go : (s.poke p f).go = s.go := rfl
@[simp] theorem poke_speed : (s.poke p f).speed = s.speed := rfl
@[simp] theorem poke_timer : (s.poke p f).timer = s.timer := rfl
@[simp] theorem poke_host : (s.poke p f).host = s.host := rfl

@[simp] theorem poke_length : (s.poke p f).sprites.length = s.sprites.length := by
  simp [Game_Scene.poke]

end poke

@[simp] theorem restart_game_gameplay (s : Game_Scene) :
    s.restart_game.gameplay = Gameplay_State.WAITING_TO_START := rfl

@[simp] theorem restart_game_go (s : Game_Scene) : s.restart_game.go = s.go := by
  simp [Game_Scene.restart_game]

@[simp] theorem restart_game_birdjump (s : Game_Scene) :
    s.restart_game.birdjump = s.birdjump := by
  simp [Game_Scene.restart_game]

@[simp] theorem restart_game_state (s : Game_Scene) : s.restart_game.state = s.state := by
  simp [Game_Scene.restart_game]

@[simp] theorem restart_game_pipepos (s : Game_Scene) :
    s.restart_game.pipepos = ((s.canvas_height / 2 : Nat) : ℚ) := rfl

@[simp] theorem restart_game_length (s : Game_Scene) :
    s.restart_game.sprites.length = s.sprites.length := by
  simp [Game_Scene.restart_game]

@[simp] theorem create_sprites_length (s : Game_Scene) :
    s.create_sprites.sprites.length = s.sprites.length + 6 := by
  simp [Game_Scene.create_sprites]

/-! ## Loading in table order -/

theorem run_append (s : Game_Scene) (cs ds : List Call) :
    s.run (cs ++ ds) = (s.run cs).run ds := by
  simp [Game_Scene.run, List.foldl_append]

theorem loaded_handle :
    loaded.textures.entry TexId.hbar = some (some ⟨720, 700⟩) ∧
    loaded.textures.entry TexId.flappy = some (some ⟨10, 20⟩) ∧
    loaded.textures.entry TexId.top = some (some ⟨720, 20⟩) ∧
    loaded.textures.entry TexId.bottom = some (some ⟨10, 20⟩) ∧
    loaded.textures.entry TexId.exit = some (some ⟨10, 20⟩) :=
  ⟨rfl, rfl, rfl, rfl, rfl⟩

theorem loaded_sprites : loaded.sprites = [] := by decide

theorem loaded_numbers :
    loaded.canvas_width = 720 ∧ loaded.canvas_height = 1280 ∧ loaded.birdpos = 640 ∧
    loaded.pipepos = 640 ∧ loaded.speed = 3 := by
  have h1 : loaded.birdpos = ((1280 / 2 : Nat) : ℚ) := rfl
  have h2 : loaded.pipepos = ((1280 / 2 : Nat) : ℚ) := rfl
  refine ⟨rfl, rfl, ?_, ?_, rfl⟩
  · rw [h1]; norm_num
  · rw [h2]; norm_num

theorem running_eq :
    running = { (loaded.create_sprites.restart_game) with state := State.RUNNING } := by
  have h := update_full loaded 0 (good_tick 5) (by decide) (by decide)
      (size_of_all_fulfilled loaded loaded_all_fulfilled)
  have hstart : loaded.timer = ⟨0⟩ := by decide
  rw [hstart] at h
  simpa [running, Timer.get_elapsed_seconds, good_tick] using h

theorem running_sprites : running.sprites =
    [ ⟨some ⟨720, 700⟩, HAnchor.LEFT, VAnchor.TOP, 0, 1280, 1, 0, 0⟩,
      ⟨some ⟨720, 700⟩, HAnchor.LEFT, VAnchor.BOTTOM, 0, 0, 1, 0, 0⟩,
      ⟨some ⟨10, 20⟩, HAnchor.CENTER, VAnchor.CENTER, 30, 640, 9 / 2, 0, 0⟩,
      ⟨some ⟨720, 20⟩, HAnchor.CENTER, VAnchor.CENTER, 0, 1040, 1, 0, 0⟩,
      ⟨some ⟨10, 20⟩, HAnchor.CENTER, VAnchor.CENTER, 710, 240, 1, 0, 0⟩,
      ⟨some ⟨10, 20⟩, HAnchor.CENTER, VAnchor.CENTER, 620, 1180, 1 / 5, 0, 0⟩ ] := by
  rw [running_eq]
  simp [Game_Scene.restart_game, Game_Scene.create_sprites, Game_Scene.poke, Texture_Map.touch,
    Texture_Map.handle, loaded_handle, loaded_sprites, loaded_numbers, Sprite.new,
    Sprite.set_anchor, Sprite.set_position, Sprite.set_scale, Sprite.set_speed_x,
    Sprite.set_speed_y, Sprite.get_width, usub, UMAX]
  norm_num

theorem running_pointers :
    running.top_border = 0 ∧ running.bottom_border = 1 ∧ running.bird = 2 ∧
    running.toppipe = 3 ∧ running.bottompipe = 4 ∧ running.exit_x = 5 := by
  rw [running_eq]
  simp [Game_Scene.restart_game, Game_Scene.create_sprites, Game_Scene.poke, loaded_sprites]

theorem running_flags :
    running.state = State.RUNNING ∧ running.gameplay = Gameplay_State.WAITING_TO_START ∧
    running.suspended = false ∧ running.birdjump = false ∧ running.go = false := by
  rw [running_eq]
  refine ⟨rfl, rfl, ?_, ?_, ?_⟩
  · simp [Game_Scene.restart_game, Game_Scene.create_sprites, Game_Scene.poke]
    decide
  · simp [Game_Scene.restart_game, Game_Scene.create_sprites, Game_Scene.poke]
    decide
  · simp [Game_Scene.restart_game, Game_Scene.create_sprites, Game_Scene.poke]
    decide

theorem running_numbers :
    running.canvas_width = 720 ∧ running.canvas_height = 1280 ∧ running.birdpos = 640 ∧
    running.pipepos = 640 ∧ running.speed = 3 ∧ running.timer = ⟨0⟩ := by
  rw [running_eq]
  simp [Game_Scene.restart_game, Game_Scene.create_sprites, Game_Scene.poke, loaded_numbers]
  decide

/-! ## Events -/

theorem handle_waiting (s : Game_Scene) (e : Event) (now : ℚ)
    (hst : s.state = State.RUNNING) (hgp : s.gameplay = Gameplay_State.WAITING_TO_START) :
    s.handle e now = s.start_playing := by
  simp [Game_Scene.handle, hst, hgp]

theorem handle_playing_touch (s : Game_Scene) (e : Event) (now : ℚ)
    (hst : s.state = State.RUNNING) (hgp : s.gameplay = Gameplay_State.PLAYING)
    (he : e.id = Event_Id.touch_started) (hex : s.over_exit e.x e.y = false) :
    s.handle e now = { s with birdjump := true, go := true, timer := s.timer.reset now } := by
  simp [Game_Scene.handle, hst, hgp, he, hex]

theorem running_exit_sprite :
    running.sprite running.exit_x
      = ⟨some ⟨10, 20⟩, HAnchor.CENTER, VAnchor.CENTER, 620, 1180, 1 / 5, 0, 0⟩ := by
  simp [Game_Scene.sprite, running_pointers, running_sprites]

theorem running_tap_misses_exit :
    (running.sprite running.exit_x).contains tap.x tap.y = false ∧
    running.over_exit tap.x tap.y = false := by
  constructor
  · rw [running_exit_sprite]
    norm_num [Sprite.contains, Sprite.left, Sprite.right, Sprite.bottom, Sprite.top,
      Sprite.get_width, Sprite.get_height, tap]
  · simp only [Game_Scene.over_exit]
    rw [running_exit_sprite]
    norm_num [Sprite.get_position_x, Sprite.get_position_y, Sprite.get_width,
      Sprite.get_height, tap]

/-- C6 (amended): in a RUNNING scene whose gameplay is WAITING_TO_START, a
pointer-down event only starts the round: `handle` leaves gameplay PLAYING and
every other member, `birdjump` and `go` included, as it was. It is a further
pointer-down, one that fails the exit test of `handle`, that sets `birdjump`
and `go` to true. -/
theorem C6_first_touch_only_starts_round (s : Game_Scene) (e : Event) (now : ℚ)
    (hst : s.state = State.RUNNING) (hgp : s.gameplay = Gameplay_State.WAITING_TO_START)
    (_he : e.id = Event_Id.touch_started) :
    s.handle e now = { s with gameplay := Gameplay_State.PLAYING } ∧
    (s.handle e now).gameplay = Gameplay_State.PLAYING ∧
    (s.handle e now).birdjump = s.birdjump ∧
    (s.handle e now).go = s.go ∧
    ∀ (e2 : Event) (now2 : ℚ), e2.id = Event_Id.touch_started →
      (s.handle e now).over_exit e2.x e2.y = false →
      ((s.handle e now).handle e2 now2).gameplay = Gameplay_State.PLAYING ∧
      ((s.handle e now).handle e2 now2).birdjump = true ∧
      ((s.handle e now).handle e2 now2).go = true := by
  rw [handle_waiting s e now hst hgp]
  refine ⟨rfl, rfl, rfl, rfl, ?_⟩
  intro e2 now2 he2 hex
  rw [handle_playing_touch s.start_playing e2 now2 hst rfl he2 hex]
  exact ⟨rfl, rfl, rfl⟩

/-- C6 (amended) at the sample scene waiting to start, with a pointer-down at the origin. -/
theorem C6_first_touch_only_starts_round_witness :
    running.handle tap 6 = { running with gameplay := Gameplay_State.PLAYING } ∧
    (running.handle tap 6).gameplay = Gameplay_State.PLAYING ∧
    (running.handle tap 6).birdjump = running.birdjump ∧
    (running.handle tap 6).go = running.go ∧
    ∀ (e2 : Event) (now2 : ℚ), e2.id = Event_Id.touch_started →
      (running.handle tap 6).over_exit e2.x e2.y = false →
      ((running.handle tap 6).handle e2 now2).gameplay = Gameplay_State.PLAYING ∧
      ((running.handle tap 6).handle e2 now2).birdjump = true ∧
      ((running.handle tap 6).handle e2 now2).go = true :=
  C6_first_touch_only_starts_round running tap 6 running_flags.1 running_flags.2.1 rfl

/-- C6 (as stated, refuted): the sample scene is RUNNING and WAITING_TO_START
with `birdjump` false; a pointer-down at the origin, which is outside the exit
sprite's rectangle and fails the exit test, leaves gameplay PLAYING but
`birdjump` still false. -/
theorem C6_counterexample_birdjump_stays_false :
    running.state = State.RUNNING ∧ running.gameplay = Gameplay_State.WAITING_TO_START ∧
    tap.id = Event_Id.touch_started ∧
    (running.sprite running.exit_x).contains tap.x tap.y = false ∧
    running.over_exit tap.x tap.y = false ∧
    (running.handle tap 6).gameplay = Gameplay_State.PLAYING ∧
    (running.handle tap 6).birdjump = false := by
  refine ⟨running_flags.1, running_flags.2.1, rfl, running_tap_misses_exit.1,
    running_tap_misses_exit.2, ?_, ?_⟩
  · rw [handle_waiting running tap 6 running_flags.1 running_flags.2.1]; rfl
  · rw [handle_waiting running tap 6 running_flags.1 running_flags.2.1]
    exact running_flags.2.2.2.1

/-- C7 (amended): in a RUNNING scene whose gameplay is WAITING_TO_START, a
pointer-move or pointer-up event starts the round just as a pointer-down does:
`handle` leaves gameplay PLAYING and every other member as it was. -/
theorem C7_move_or_up_also_starts_round (s : Game_Scene) (e : Event) (now : ℚ)
    (hst : s.state = State.RUNNING) (hgp : s.gameplay = Gameplay_State.WAITING_TO_START)
    (_he : e.id = Event_Id.touch_moved ∨ e.id = Event_Id.touch_ended) :
    (s.handle e now).gameplay = Gameplay_State.PLAYING ∧
    s.handle e now = { s with gameplay := Gameplay_State.PLAYING } := by
  rw [handle_waiting s e now hst hgp]
  exact ⟨rfl, rfl⟩

/-- C7 (amended) at the sample scene waiting to start, with a pointer-move event. -/
theorem C7_move_or_up_also_starts_round_witness :
    (running.handle drag 6).gameplay = Gameplay_State.PLAYING ∧
    running.handle drag 6 = { running with gameplay := Gameplay_State.PLAYING } :=
  C7_move_or_up_also_starts_round running drag 6 running_flags.1 running_flags.2.1
    (Or.inl rfl)

/-- C7 (as stated, refuted): the sample scene is RUNNING and WAITING_TO_START;
a pointer-move event leaves gameplay PLAYING, not WAITING_TO_START. -/
theorem C7_counterexample_move_starts_round :
    running.state = State.RUNNING ∧ running.gameplay = Gameplay_State.WAITING_TO_START ∧
    drag.id = Event_Id.touch_moved ∧
    (running.handle drag 6).gameplay = Gameplay_State.PLAYING ∧
    (running.handle drag 6).gameplay ≠ Gameplay_State.WAITING_TO_START := by
  have h : (running.handle drag 6).gameplay = Gameplay_State.PLAYING := by
    rw [handle_waiting running drag 6 running_flags.1 running_flags.2.1]; rfl
  refine ⟨running_flags.1, running_flags.2.1, rfl, h, ?_⟩
  rw [h]
  decide

/-! ## The simulation step -/

section simulation
variable (s : Game_Scene)

@[simp] theorem integrate_go (time : ℚ) : (s.integrate time).go = s.go := rfl
@[simp] theorem integrate_birdjump (time : ℚ) : (s.integrate time).birdjump = s.birdjump := rfl
@[simp] theorem integrate_timer (time : ℚ) : (s.integrate time).timer = s.timer := rfl

@[simp] theorem update_ai_go (r : Nat) : (s.update_ai r).go = s.go := by
  unfold Game_Scene.update_ai
  split <;> simp [Game_Scene.scroll, Game_Scene.recycle]

@[simp] theorem update_ai_birdjump (r : Nat) : (s.update_ai r).birdjump = s.birdjump := by
  unfold Game_Scene.update_ai
  split <;> simp [Game_Scene.scroll, Game_Scene.recycle]

@[simp] theorem update_ai_timer (r : Nat) : (s.update_ai r).timer = s.timer := by
  unfold Game_Scene.update_ai
  split <;> simp [Game_Scene.scroll, Game_Scene.recycle]

theorem move_user_birdjump (now : ℚ) :
    (s.move_user now).birdjump
      = if s.timer.get_elapsed_seconds now > 1 then false else s.birdjump := by
  unfold Game_Scene.move_user
  by_cases hel : s.timer.get_elapsed_seconds now > 1 <;> cases hb : s.birdjump <;> simp [hel, hb]

@[simp] theorem move_user_go (now : ℚ) : (s.move_user now).go = s.go := by
  unfold Game_Scene.move_user
  by_cases hel : s.timer.get_elapsed_seconds now > 1 <;> cases hb : s.birdjump <;> simp [hel, hb]

@[simp] theorem move_user_gameplay (now : ℚ) : (s.move_user now).gameplay = s.gameplay := by
  unfold Game_Scene.move_user
  by_cases hel : s.timer.get_elapsed_seconds now > 1 <;> cases hb : s.birdjump <;> simp [hel, hb]

end simulation

theorem update_running_go (s : Game_Scene) (time : ℚ) (t : Tick)
    (hsusp : s.suspended = false) (hst : s.state = State.RUNNING) (hgo : s.go = true) :
    s.update time t =
      if (s.moved time t).collides then
        Game_Scene.restart_game { (s.moved time t) with go := false }
      else s.moved time t := by
  simp [Game_Scene.update, hsusp, hst, Game_Scene.run_simulation, hgo, Game_Scene.update_user,
    Game_Scene.moved]

theorem update_running_idle (s : Game_Scene) (time : ℚ) (t : Tick)
    (hsusp : s.suspended = false) (hst : s.state = State.RUNNING) (hgo : s.go = false) :
    s.update time t = s.integrate time := by
  simp [Game_Scene.update, hsusp, hst, Game_Scene.run_simulation, hgo]

theorem moved_birdjump (s : Game_Scene) (time : ℚ) (t : Tick) :
    (s.moved time t).birdjump
      = if s.timer.get_elapsed_seconds t.now > 1 then false else s.birdjump := by
  simp [Game_Scene.moved, move_user_birdjump]

/-- C8 (amended): in a RUNNING scene that is not suspended, whose gameplay is
PLAYING and whose `go` flag is set, if after this tick's motion (sprite
integration, pipe scroll, bird step) the bird's bounding rectangle intersects
the top border, the bottom border, the upper pipe or the lower pipe, then
`update` leaves gameplay WAITING_TO_START and `go` false. The flag `birdjump`
is not cleared by the collision: after the update it is false exactly when
it was false before or the timer reads more than 1 second. -/
theorem C8_collision_resets_round_and_go (s : Game_Scene) (time : ℚ) (t : Tick)
    (hsusp : s.suspended = false) (hst : s.state = State.RUNNING)
    (_hgp : s.gameplay = Gameplay_State.PLAYING) (hgo : s.go = true)
    (hcol : (s.moved time t).collides = true) :
    (s.update time t).gameplay = Gameplay_State.WAITING_TO_START ∧
    (s.update time t).go = false ∧
    ((s.update time t).birdjump = false ↔
      (s.birdjump = false ∨ s.timer.get_elapsed_seconds t.now > 1)) := by
  rw [update_running_go s time t hsusp hst hgo, if_pos hcol]
  refine ⟨restart_game_gameplay _, ?_, ?_⟩
  · rw [restart_game_go]
  · rw [restart_game_birdjump]
    show (s.moved time t).birdjump = false ↔ _
    rw [moved_birdjump]
    by_cases hel : s.timer.get_elapsed_seconds t.now > 1
    · simp [hel]
    · simp [hel]

/-! ## The sample scenes `started` and `playing` -/

theorem started_eq : started = { running with gameplay := Gameplay_State.PLAYING } :=
  handle_waiting running tap 6 running_flags.1 running_flags.2.1

theorem playing_eq :
    playing = { running with
      gameplay := Gameplay_State.PLAYING, birdjump := true, go := true, timer := ⟨6⟩ } := by
  have hex : started.over_exit tap.x tap.y = false := by
    rw [started_eq]
    exact running_tap_misses_exit.2
  have h := handle_playing_touch started tap 6 (by rw [started_eq]; exact running_flags.1)
    (by rw [started_eq]) rfl hex
  show started.handle tap 6 = _
  rw [h, started_eq]
  rfl

theorem playing_moved_sprites : (playing.moved 0 (good_tick (13 / 2))).sprites =
    [ ⟨some ⟨720, 700⟩, HAnchor.LEFT, VAnchor.TOP, 0, 1280, 1, 0, 0⟩,
      ⟨some ⟨720, 700⟩, HAnchor.LEFT, VAnchor.BOTTOM, 0, 0, 1, 0, 0⟩,
      ⟨some ⟨10, 20⟩, HAnchor.CENTER, VAnchor.CENTER, 30, 643, 9 / 2, 0, 0⟩,
      ⟨some ⟨720, 20⟩, HAnchor.CENTER, VAnchor.CENTER, 720, 847, 1, 0, 0⟩,
      ⟨some ⟨10, 20⟩, HAnchor.CENTER, VAnchor.CENTER, 720, 47, 1, 0, 0⟩,
      ⟨some ⟨10, 20⟩, HAnchor.CENTER, VAnchor.CENTER, 620, 1180, 1 / 5, 0, 0⟩ ] := by
  rw [playing_eq]
  simp [Game_Scene.moved, Game_Scene.integrate, Game_Scene.update_ai, Game_Scene.scroll,
    Game_Scene.recycle, Game_Scene.move_user, Game_Scene.poke, Game_Scene.sprite,
    running_sprites, running_pointers, running_numbers, Sprite.update, Sprite.set_position_x,
    Sprite.set_position_y, Sprite.get_position_x, Sprite.get_position_y, good_tick,
    Timer.get_elapsed_seconds, Game_Scene.new_pipepos, uadd, usub, UMAX]
  norm_num

theorem playing_moved_pointers :
    (playing.moved 0 (good_tick (13 / 2))).top_border = 0 ∧
    (playing.moved 0 (good_tick (13 / 2))).bottom_border = 1 ∧
    (playing.moved 0 (good_tick (13 / 2))).bird = 2 ∧
    (playing.moved 0 (good_tick (13 / 2))).toppipe = 3 ∧
    (playing.moved 0 (good_tick (13 / 2))).bottompipe = 4 := by
  rw [playing_eq]
  simp [Game_Scene.moved, Game_Scene.integrate, Game_Scene.update_ai, Game_Scene.scroll,
    Game_Scene.recycle, Game_Scene.move_user, Game_Scene.poke, Game_Scene.sprite,
    running_sprites, running_pointers, running_numbers, Sprite.update, Sprite.set_position_x,
    Sprite.get_position_x, good_tick, Timer.get_elapsed_seconds]
  norm_num

theorem playing_flags :
    playing.suspended = false ∧ playing.state = State.RUNNING ∧
    playing.gameplay = Gameplay_State.PLAYING ∧ playing.go = true ∧ playing.birdjump = true ∧
    playing.timer = ⟨6⟩ := by
  rw [playing_eq]
  exact ⟨running_flags.2.2.1, running_flags.1, rfl, rfl, rfl, rfl⟩

theorem playing_moved_collides : (playing.moved 0 (good_tick (13 / 2))).collides = true := by
  simp only [Game_Scene.collides, Game_Scene.sprite, playing_moved_pointers,
    playing_moved_sprites]
  norm_num [Sprite.intersects, Sprite.left, Sprite.right, Sprite.bottom, Sprite.top,
    Sprite.get_width, Sprite.get_height]

theorem started_flags :
    started.suspended = false ∧ started.state = State.RUNNING ∧
    started.gameplay = Gameplay_State.PLAYING ∧ started.go = false := by
  rw [started_eq]
  exact ⟨running_flags.2.2.1, running_flags.1, rfl, running_flags.2.2.2.2⟩

theorem started_integrate_collides : (started.integrate 0).collides = true := by
  rw [started_eq]
  simp only [Game_Scene.collides, Game_Scene.sprite, Game_Scene.integrate, running_pointers,
    running_sprites]
  norm_num [Sprite.intersects, Sprite.left, Sprite.right, Sprite.bottom, Sprite.top,
    Sprite.get_width, Sprite.get_height, Sprite.update]

/-- C8 (amended) at the sample scene in play, whose bird hits the top border. -/
theorem C8_collision_resets_round_and_go_witness :
    (playing.update 0 (good_tick (13 / 2))).gameplay = Gameplay_State.WAITING_TO_START ∧
    (playing.update 0 (good_tick (13 / 2))).go = false ∧
    ((playing.update 0 (good_tick (13 / 2))).birdjump = false ↔
      (playing.birdjump = false ∨ playing.timer.get_elapsed_seconds (good_tick (13 / 2)).now > 1)) :=
  C8_collision_resets_round_and_go playing 0 (good_tick (13 / 2)) playing_flags.1
    playing_flags.2.1 playing_flags.2.2.1 playing_flags.2.2.2.1 playing_moved_collides

/-- C8 (as stated, refuted), on two RUNNING, PLAYING scenes that are not
suspended and in which the bird intersects the top border after the tick's
motion. With `go` and `birdjump` set and the timer reading half a second, the
update leaves `birdjump` true. With `go` clear (the round was started by a
first touch, no second touch yet), the update leaves gameplay PLAYING. -/
theorem C8_counterexample_birdjump_and_idle :
    (playing.suspended = false ∧ playing.state = State.RUNNING ∧
      playing.gameplay = Gameplay_State.PLAYING ∧
      (playing.moved 0 (good_tick (13 / 2))).collides = true ∧
      (playing.update 0 (good_tick (13 / 2))).birdjump = true) ∧
    (started.suspended = false ∧ started.state = State.RUNNING ∧
      started.gameplay = Gameplay_State.PLAYING ∧
      (started.integrate 0).collides = true ∧
      ((started.update 0 (good_tick (13 / 2))).sprite
        (started.update 0 (good_tick (13 / 2))).bird).intersects
        ((started.update 0 (good_tick (13 / 2))).sprite
          (started.update 0 (good_tick (13 / 2))).top_border) = true ∧
      (started.update 0 (good_tick (13 / 2))).gameplay = Gameplay_State.PLAYING) := by
  constructor
  · refine ⟨playing_flags.1, playing_flags.2.1, playing_flags.2.2.1, playing_moved_collides, ?_⟩
    rw [update_running_go playing 0 (good_tick (13 / 2)) playing_flags.1 playing_flags.2.1
      playing_flags.2.2.2.1, if_pos playing_moved_collides, restart_game_birdjump]
    show (playing.moved 0 (good_tick (13 / 2))).birdjump = true
    rw [moved_birdjump, playing_flags.2.2.2.2.2, playing_flags.2.2.2.2.1]
    norm_num [Timer.get_elapsed_seconds, good_tick]
  · have hupd := update_running_idle started 0 (good_tick (13 / 2)) started_flags.1
      started_flags.2.1 started_flags.2.2.2
    refine ⟨started_flags.1, started_flags.2.1, started_flags.2.2.1,
      started_integrate_collides, ?_, ?_⟩
    · rw [hupd, started_eq]
      simp only [Game_Scene.sprite, Game_Scene.integrate, running_pointers, running_sprites]
      norm_num [Sprite.intersects, Sprite.left, Sprite.right, Sprite.bottom, Sprite.top,
        Sprite.get_width, Sprite.get_height, Sprite.update]
    · rw [hupd]
      exact started_flags.2.2.1

/-! ## Restarting a round -/

theorem collided_members :
    collided.state = State.RUNNING ∧ collided.canvas_width = 720 ∧
    collided.canvas_height = 1280 ∧ collided.birdpos = 640 ∧ collided.pipepos = 447 ∧
    collided.bird = 2 ∧ collided.toppipe = 3 ∧ collided.bottompipe = 4 := by
  simp only [collided, playing_moved_pointers]
  rw [playing_eq]
  simp [Game_Scene.moved, Game_Scene.integrate, Game_Scene.update_ai, Game_Scene.scroll,
    Game_Scene.recycle, Game_Scene.move_user, Game_Scene.poke, Game_Scene.sprite,
    running_sprites, running_pointers, running_numbers, running_flags, Sprite.update,
    Sprite.set_position_x, Sprite.get_position_x, good_tick, Timer.get_elapsed_seconds,
    Game_Scene.new_pipepos, uadd, usub, UMAX]
  norm_num

theorem collided_sprites : collided.sprites =
    [ ⟨some ⟨720, 700⟩, HAnchor.LEFT, VAnchor.TOP, 0, 1280, 1, 0, 0⟩,
      ⟨some ⟨720, 700⟩, HAnchor.LEFT, VAnchor.BOTTOM, 0, 0, 1, 0, 0⟩,
      ⟨some ⟨10, 20⟩, HAnchor.CENTER, VAnchor.CENTER, 30, 643, 9 / 2, 0, 0⟩,
      ⟨some ⟨720, 20⟩, HAnchor.CENTER, VAnchor.CENTER, 720, 847, 1, 0, 0⟩,
      ⟨some ⟨10, 20⟩, HAnchor.CENTER, VAnchor.CENTER, 720, 47, 1, 0, 0⟩,
      ⟨some ⟨10, 20⟩, HAnchor.CENTER, VAnchor.CENTER, 620, 1180, 1 / 5, 0, 0⟩ ] :=
  playing_moved_sprites

theorem collided_is_restarted :
    playing.update 0 (good_tick (13 / 2)) = collided.restart_game := by
  rw [update_running_go playing 0 (good_tick (13 / 2)) playing_flags.1 playing_flags.2.1
    playing_flags.2.2.2.1, if_pos playing_moved_collides]
  rfl

/-- C9: evaluation of `restart_game` on the scene it is called with when the
bird hits a border just after the pipes were recycled (stored `pipepos` 447).
One call leaves the pipes at heights 847 and 47, around the old centre; a
second call in a row moves them to 1040 and 240, around the centre 640 that
the first call stored only after placing the pipes. Bird and `pipepos` are
the same after one call and after two. -/
theorem C9_restart_twice_moves_the_pipes :
    collided.state = State.RUNNING ∧ collided.pipepos = 447 ∧
    playing.update 0 (good_tick (13 / 2)) = collided.restart_game ∧
    collided.restart_game.pipepos = 640 ∧
    collided.restart_game.restart_game.pipepos = 640 ∧
    collided.restart_game.sprites =
      [ ⟨some ⟨720, 700⟩, HAnchor.LEFT, VAnchor.TOP, 0, 1280, 1, 0, 0⟩,
        ⟨some ⟨720, 700⟩, HAnchor.LEFT, VAnchor.BOTTOM, 0, 0, 1, 0, 0⟩,
        ⟨some ⟨10, 20⟩, HAnchor.CENTER, VAnchor.CENTER, 135, 640, 9 / 2, 0, 0⟩,
        ⟨some ⟨720, 20⟩, HAnchor.CENTER, VAnchor.CENTER, 0, 847, 1, 0, 0⟩,
        ⟨some ⟨10, 20⟩, HAnchor.CENTER, VAnchor.CENTER, 710, 47, 1, 0, 0⟩,
        ⟨some ⟨10, 20⟩, HAnchor.CENTER, VAnchor.CENTER, 620, 1180, 1 / 5, 0, 0⟩ ] ∧
    collided.restart_game.restart_game.sprites =
      [ ⟨some ⟨720, 700⟩, HAnchor.LEFT, VAnchor.TOP, 0, 1280, 1, 0, 0⟩,
        ⟨some ⟨720, 700⟩, HAnchor.LEFT, VAnchor.BOTTOM, 0, 0, 1, 0, 0⟩,
        ⟨some ⟨10, 20⟩, HAnchor.CENTER, VAnchor.CENTER, 135, 640, 9 / 2, 0, 0⟩,
        ⟨some ⟨720, 20⟩, HAnchor.CENTER, VAnchor.CENTER, 0, 1040, 1, 0, 0⟩,
        ⟨some ⟨10, 20⟩, HAnchor.CENTER, VAnchor.CENTER, 710, 240, 1, 0, 0⟩,
        ⟨some ⟨10, 20⟩, HAnchor.CENTER, VAnchor.CENTER, 620, 1180, 1 / 5, 0, 0⟩ ] ∧
    (collided.restart_game.restart_game.sprite collided.toppipe).position_y
      ≠ (collided.restart_game.sprite collided.toppipe).position_y := by
  have h1 : collided.restart_game.sprites =
      [ ⟨some ⟨720, 700⟩, HAnchor.LEFT, VAnchor.TOP, 0, 1280, 1, 0, 0⟩,
        ⟨some ⟨720, 700⟩, HAnchor.LEFT, VAnchor.BOTTOM, 0, 0, 1, 0, 0⟩,
        ⟨some ⟨10, 20⟩, HAnchor.CENTER, VAnchor.CENTER, 135, 640, 9 / 2, 0, 0⟩,
        ⟨some ⟨720, 20⟩, HAnchor.CENTER, VAnchor.CENTER, 0, 847, 1, 0, 0⟩,
        ⟨some ⟨10, 20⟩, HAnchor.CENTER, VAnchor.CENTER, 710, 47, 1, 0, 0⟩,
        ⟨some ⟨10, 20⟩, HAnchor.CENTER, VAnchor.CENTER, 620, 1180, 1 / 5, 0, 0⟩ ] := by
    simp [Game_Scene.restart_game, Game_Scene.poke, collided_members, collided_sprites,
      Sprite.set_position, Sprite.set_scale, Sprite.set_speed_x, Sprite.set_speed_y,
      Sprite.get_width]
    norm_num
  have h2 : collided.restart_game.restart_game.sprites =
      [ ⟨some ⟨720, 700⟩, HAnchor.LEFT, VAnchor.TOP, 0, 1280, 1, 0, 0⟩,
        ⟨some ⟨720, 700⟩, HAnchor.LEFT, VAnchor.BOTTOM, 0, 0, 1, 0, 0⟩,
        ⟨some ⟨10, 20⟩, HAnchor.CENTER, VAnchor.CENTER, 135, 640, 9 / 2, 0, 0⟩,
        ⟨some ⟨720, 20⟩, HAnchor.CENTER, VAnchor.CENTER, 0, 1040, 1, 0, 0⟩,
        ⟨some ⟨10, 20⟩, HAnchor.CENTER, VAnchor.CENTER, 710, 240, 1, 0, 0⟩,
        ⟨some ⟨10, 20⟩, HAnchor.CENTER, VAnchor.CENTER, 620, 1180, 1 / 5, 0, 0⟩ ] := by
    have hm : collided.restart_game.bird = 2 ∧ collided.restart_game.toppipe = 3 ∧
        collided.restart_game.bottompipe = 4 ∧ collided.restart_game.canvas_width = 720 ∧
        collided.restart_game.canvas_height = 1280 ∧ collided.restart_game.birdpos = 640 := by
      simp [Game_Scene.restart_game, collided_members]
    have hp : collided.restart_game.pipepos = 640 := by
      rw [restart_game_pipepos, collided_members.2.2.1]; norm_num
    generalize collided.restart_game = c at h1 hm hp
    simp [Game_Scene.restart_game, Game_Scene.poke, hm, hp, h1,
      Sprite.set_position, Sprite.set_scale, Sprite.set_speed_x, Sprite.set_speed_y,
      Sprite.get_width]
    norm_num
  have hp1 : collided.restart_game.pipepos = 640 := by
    rw [restart_game_pipepos, collided_members.2.2.1]; norm_num
  have hp2 : collided.restart_game.restart_game.pipepos = 640 := by
    rw [restart_game_pipepos]
    have : collided.restart_game.canvas_height = 1280 := by
      simp [Game_Scene.restart_game, collided_members]
    rw [this]; norm_num
  refine ⟨collided_members.1, collided_members.2.2.2.2.1, collided_is_restarted, hp1, hp2,
    h1, h2, ?_⟩
  simp only [Game_Scene.sprite, h1, h2, collided_members]
  norm_num

/-! ## Recycling the pipes -/

theorem sprite_poke (s : Game_Scene) (p q : Nat) (f : Sprite → Sprite) :
    (s.poke p f).sprite q
      = if p = q ∧ p < s.sprites.length then f (s.sprite p) else s.sprite q := by
  by_cases hpq : p = q
  · subst hpq
    by_cases hlt : p < s.sprites.length
    · simp [Game_Scene.sprite, Game_Scene.poke, List.getD_eq_getElem?_getD, List.getElem?_set, hlt]
    · have hnone : s.sprites[p]? = none := List.getElem?_eq_none (Nat.le_of_not_lt hlt)
      simp [Game_Scene.sprite, Game_Scene.poke, List.getD_eq_getElem?_getD, List.getElem?_set,
        hlt, hnone]
  · simp [Game_Scene.sprite, Game_Scene.poke, List.getD_eq_getElem?_getD, List.getElem?_set, hpq]

theorem new_pipepos_1280 (r : Nat) (hr : r < 2 ^ 31) :
    Game_Scene.new_pipepos 1280 r = 440 + r % 400 := by
  have h1 : usub (1280 / 2) 200 = 440 := by decide
  have h2 : usub (uadd (1280 / 2) 200) (usub (1280 / 2) 200) = 400 := by decide
  have h3 : r % UMAX = r := Nat.mod_eq_of_lt (by unfold UMAX; omega)
  unfold Game_Scene.new_pipepos
  rw [h2, h1, h3]
  unfold uadd UMAX
  omega

@[simp] theorem scroll_length (s : Game_Scene) : s.scroll.sprites.length = s.sprites.length := by
  simp [Game_Scene.scroll]

@[simp] theorem scroll_toppipe (s : Game_Scene) : s.scroll.toppipe = s.toppipe := rfl

@[simp] theorem scroll_bottompipe (s : Game_Scene) : s.scroll.bottompipe = s.bottompipe := rfl

@[simp] theorem scroll_canvas_width (s : Game_Scene) : s.scroll.canvas_width = s.canvas_width := rfl

@[simp] theorem scroll_canvas_height (s : Game_Scene) :
    s.scroll.canvas_height = s.canvas_height := rfl

theorem recycle_pipepos (s : Game_Scene) (r : Nat) :
    (s.recycle r).pipepos = ((Game_Scene.new_pipepos s.canvas_height r : Nat) : ℚ) := by
  simp [Game_Scene.recycle]

theorem recycle_pipes_x (s : Game_Scene) (r : Nat)
    (htop : s.toppipe < s.sprites.length) (hbot : s.bottompipe < s.sprites.length) :
    ((s.recycle r).sprite s.toppipe).get_position_x = (s.canvas_width : ℚ) ∧
    ((s.recycle r).sprite s.bottompipe).get_position_x = (s.canvas_width : ℚ) := by
  by_cases hpq : s.toppipe = s.bottompipe
  · simp [Game_Scene.recycle, sprite_poke, htop, hbot, hpq, Sprite.get_position_x,
      Sprite.set_position_x, Sprite.set_position_y]
  · have hqp : ¬ s.bottompipe = s.toppipe := fun h => hpq h.symm
    simp [Game_Scene.recycle, sprite_poke, htop, hbot, hpq, hqp, Sprite.get_position_x,
      Sprite.set_position_x, Sprite.set_position_y]

/-- C10: on a 720 x 1280 canvas, with valid pipe pointers and `rand ()`
returning `r`, if the scroll of `update_ai` brings the upper pipe's x below 0
then after `update_ai` both pipes have x equal to `canvas_width` (720) and the
new centre is `pipepos = 440 + r mod 400`, which lies in
`[canvas_height/2 - 200, canvas_height/2 + 200)`; and in every case the upper
pipe's x is not negative once `update_ai` has returned. -/
theorem C10_recycle_position_and_range (s : Game_Scene) (r : Nat)
    (hw : s.canvas_width = 720) (hh : s.canvas_height = 1280) (hr : r < 2 ^ 31)
    (htop : s.toppipe < s.sprites.length) (hbot : s.bottompipe < s.sprites.length) :
    ((s.scroll.sprite s.toppipe).get_position_x < 0 →
      ((s.update_ai r).sprite s.toppipe).get_position_x = 720 ∧
      ((s.update_ai r).sprite s.bottompipe).get_position_x = 720 ∧
      (s.update_ai r).pipepos = ((440 + r % 400 : Nat) : ℚ) ∧
      ((s.canvas_height / 2 : Nat) : ℚ) - 200 ≤ (s.update_ai r).pipepos ∧
      (s.update_ai r).pipepos < ((s.canvas_height / 2 : Nat) : ℚ) + 200) ∧
    0 ≤ ((s.update_ai r).sprite s.toppipe).get_position_x := by
  have hx := recycle_pipes_x s.scroll r (by simpa using htop) (by simpa using hbot)
  simp only [scroll_toppipe, scroll_bottompipe, scroll_canvas_width, hw] at hx
  have hpp : (s.scroll.recycle r).pipepos = ((440 + r % 400 : Nat) : ℚ) := by
    rw [recycle_pipepos, scroll_canvas_height, hh, new_pipepos_1280 r hr]
  have hmod : r % 400 < 400 := Nat.mod_lt r (by norm_num)
  constructor
  · intro hneg
    have hai : s.update_ai r = s.scroll.recycle r := by
      simp [Game_Scene.update_ai, hneg]
    rw [hai, hpp, hh]
    refine ⟨by simpa using hx.1, by simpa using hx.2, rfl, ?_, ?_⟩
    · have hlo : (0 : ℚ) ≤ ((r % 400 : Nat) : ℚ) := Nat.cast_nonneg _
      have hhalf : ((1280 / 2 : Nat) : ℚ) = 640 := by norm_num
      rw [hhalf, Nat.cast_add]
      have h440 : ((440 : Nat) : ℚ) = 440 := by norm_num
      rw [h440]
      linarith
    · have hhi : ((r % 400 : Nat) : ℚ) < 400 := by exact_mod_cast hmod
      have hhalf : ((1280 / 2 : Nat) : ℚ) = 640 := by norm_num
      rw [hhalf, Nat.cast_add]
      have h440 : ((440 : Nat) : ℚ) = 440 := by norm_num
      rw [h440]
      linarith
  · by_cases hneg : (s.scroll.sprite s.toppipe).get_position_x < 0
    · have hai : s.update_ai r = s.scroll.recycle r := by
        simp [Game_Scene.update_ai, hneg]
      rw [hai, hx.1]
      norm_num
    · have hai : s.update_ai r = s.scroll := by
        simp [Game_Scene.update_ai, hneg]
      rw [hai]
      exact not_lt.mp hneg

theorem playing_pipes :
    playing.canvas_width = 720 ∧ playing.canvas_height = 1280 ∧
    playing.toppipe < playing.sprites.length ∧ playing.bottompipe < playing.sprites.length ∧
    (playing.scroll.sprite playing.toppipe).get_position_x < 0 := by
  rw [playing_eq]
  refine ⟨running_numbers.1, running_numbers.2.1, ?_, ?_, ?_⟩
  · simp [running_pointers, running_sprites]
  · simp [running_pointers, running_sprites]
  · simp [Game_Scene.scroll, Game_Scene.poke, Game_Scene.sprite, running_pointers,
      running_sprites, running_numbers, Sprite.set_position_x, Sprite.get_position_x]

/-- C10 at the sample scene in play, whose upper pipe scrolls from x = 0 to x = -3, with 7 from the generator. -/
theorem C10_recycle_position_and_range_witness :
    (playing.scroll.sprite playing.toppipe).get_position_x < 0 ∧
    (((playing.scroll.sprite playing.toppipe).get_position_x < 0 →
      ((playing.update_ai 7).sprite playing.toppipe).get_position_x = 720 ∧
      ((playing.update_ai 7).sprite playing.bottompipe).get_position_x = 720 ∧
      (playing.update_ai 7).pipepos = ((440 + 7 % 400 : Nat) : ℚ) ∧
      ((playing.canvas_height / 2 : Nat) : ℚ) - 200 ≤ (playing.update_ai 7).pipepos ∧
      (playing.update_ai 7).pipepos < ((playing.canvas_height / 2 : Nat) : ℚ) + 200) ∧
    0 ≤ ((playing.update_ai 7).sprite playing.toppipe).get_position_x) :=
  ⟨playing_pipes.2.2.2.2,
    C10_recycle_position_and_range playing 7 playing_pipes.1 playing_pipes.2.1 (by norm_num)
      playing_pipes.2.2.1 playing_pipes.2.2.2.1⟩

/-! ## The exit sprite -/

theorem over_exit_false_of_narrow (s : Game_Scene) (x y : ℚ)
    (h : (s.sprite s.exit_x).get_width ≤ (s.sprite s.exit_x).get_position_x) :
    s.over_exit x y = false := by
  unfold Game_Scene.over_exit
  by_cases h1 : x > (s.sprite s.exit_x).get_position_x
  · have h2 : ¬ x < (s.sprite s.exit_x).get_width := by
      intro hlt
      exact absurd (lt_of_lt_of_le hlt h) (not_lt.mpr (le_of_lt h1))
    simp [h1, h2]
  · simp [h1]

theorem started_exit_sprite :
    started.sprite started.exit_x
      = ⟨some ⟨10, 20⟩, HAnchor.CENTER, VAnchor.CENTER, 620, 1180, 1 / 5, 0, 0⟩ := by
  rw [started_eq]
  exact running_exit_sprite

theorem started_exit_tap_fails_test : started.over_exit exit_tap.x exit_tap.y = false := by
  apply over_exit_false_of_narrow
  rw [started_exit_sprite]
  norm_num [Sprite.get_width, Sprite.get_position_x]

/-- C11: evaluation at the sample scene after its first touch (RUNNING,
PLAYING), whose exit sprite sits at (canvas_width - 100, canvas_height - 100)
= (620, 1180) and is 2 wide and 4 high, with a pointer-down at (620.5, 1180.5).
The point is strictly inside the sprite's bounding rectangle, and also
strictly between the position and the position plus the size; yet the test of
`handle` fails, no menu scene is run, and `birdjump` and `go` are set. -/
theorem C11_touch_inside_exit_does_not_run_menu :
    started.state = State.RUNNING ∧ started.gameplay = Gameplay_State.PLAYING ∧
    exit_tap.id = Event_Id.touch_started ∧
    (started.sprite started.exit_x).get_position_x = ((usub started.canvas_width 100 : Nat) : ℚ) ∧
    (started.sprite started.exit_x).get_position_y = ((usub started.canvas_height 100 : Nat) : ℚ) ∧
    ((started.sprite started.exit_x).left < exit_tap.x ∧
      exit_tap.x < (started.sprite started.exit_x).left + (started.sprite started.exit_x).get_width ∧
      (started.sprite started.exit_x).bottom < exit_tap.y ∧
      exit_tap.y < (started.sprite started.exit_x).bottom
        + (started.sprite started.exit_x).get_height) ∧
    ((started.sprite started.exit_x).get_position_x < exit_tap.x ∧
      exit_tap.x < (started.sprite started.exit_x).get_position_x
        + (started.sprite started.exit_x).get_width ∧
      (started.sprite started.exit_x).get_position_y < exit_tap.y ∧
      exit_tap.y < (started.sprite started.exit_x).get_position_y
        + (started.sprite started.exit_x).get_height) ∧
    started.over_exit exit_tap.x exit_tap.y = false ∧
    (started.handle exit_tap 6).host.menu_runs = started.host.menu_runs ∧
    started.birdjump = false ∧ started.go = false ∧
    (started.handle exit_tap 6).birdjump = true ∧
    (started.handle exit_tap 6).go = true := by
  have hh := handle_playing_touch started exit_tap 6 started_flags.2.1 started_flags.2.2.1 rfl
    started_exit_tap_fails_test
  have hbj : started.birdjump = false := by
    rw [started_eq]; exact running_flags.2.2.2.1
  have hcw : started.canvas_width = 720 := by rw [started_eq]; exact running_numbers.1
  have hch : started.canvas_height = 1280 := by rw [started_eq]; exact running_numbers.2.1
  refine ⟨started_flags.2.1, started_flags.2.2.1, rfl, ?_, ?_, ?_, ?_,
    started_exit_tap_fails_test, ?_, hbj, started_flags.2.2.2, ?_, ?_⟩
  · rw [started_exit_sprite, hcw]
    norm_num [Sprite.get_position_x, usub, UMAX]
  · rw [started_exit_sprite, hch]
    norm_num [Sprite.get_position_y, usub, UMAX]
  · rw [started_exit_sprite]
    norm_num [Sprite.left, Sprite.bottom, Sprite.get_width, Sprite.get_height, exit_tap]
  · rw [started_exit_sprite]
    norm_num [Sprite.get_position_x, Sprite.get_position_y, Sprite.get_width,
      Sprite.get_height, exit_tap]
  · rw [hh]
  · rw [hh]
  · rw [hh]

/-! ## Opening the scene a second time -/

theorem loaded_loading_entry : loaded.textures.entry TexId.loading = some (some ⟨10, 20⟩) := rfl

theorem running_textures_size : running.textures.size = textures_count := by
  rw [running_eq]
  simp [Game_Scene.restart_game, Game_Scene.create_sprites, Game_Scene.poke, Texture_Map.size,
    Texture_Map.keys, Texture_Map.touch, loaded_handle, loaded_loading_entry, textures_count,
    textures_data]

theorem reopened_members :
    reopened.state = State.LOADING ∧ reopened.suspended = false ∧
    reopened.gameplay = Gameplay_State.UNINITIALIZED ∧
    reopened.sprites = running.sprites ∧ reopened.textures = running.textures ∧
    reopened.timer = running.timer :=
  ⟨rfl, rfl, rfl, rfl, rfl, rfl⟩

theorem reopened_update :
    reopened.update 0 (good_tick 5)
      = { (reopened.create_sprites.restart_game) with state := State.RUNNING } := by
  have hsize : reopened.textures.size = textures_count := by
    rw [reopened_members.2.2.2.2.1]; exact running_textures_size
  have h := update_full reopened 0 (good_tick 5) reopened_members.2.1 reopened_members.1 hsize
  rw [reopened_members.2.2.2.2.2, running_numbers.2.2.2.2.2] at h
  simpa [Timer.get_elapsed_seconds, good_tick] using h

theorem construct_to_reopened :
    (Game_Scene.construct 0 sample_uninit).run
      ([Call.resume] ++ List.replicate 6 (Call.update 0 (good_tick 0))
        ++ [Call.update 0 (good_tick 5), Call.init, Call.resume]) = reopened := by
  rw [run_append, run_append]
  rfl

/-- C12: evaluation along the calls resume, six loading updates, a seventh
update (the scene is RUNNING with 6 sprites), then `initialize`, `resume` and
one more update with the timer reading 5 seconds. The scene is RUNNING again
and its sprite list holds 12 sprites: the second `create_sprites` appended six
more to the six that were never removed. -/
theorem C12_second_opening_doubles_the_sprites :
    (Game_Scene.construct 0 sample_uninit).run
      ([Call.resume] ++ List.replicate 6 (Call.update 0 (good_tick 0))
        ++ [Call.update 0 (good_tick 5), Call.init, Call.resume]) = reopened ∧
    running.state = State.RUNNING ∧ running.sprites.length = 6 ∧
    reopened.state = State.LOADING ∧ reopened.sprites.length = 6 ∧
    (reopened.update 0 (good_tick 5)).state = State.RUNNING ∧
    (reopened.update 0 (good_tick 5)).sprites.length = 12 ∧
    ((Game_Scene.construct 0 sample_uninit).run
      ([Call.resume] ++ List.replicate 6 (Call.update 0 (good_tick 0))
        ++ [Call.update 0 (good_tick 5), Call.init, Call.resume]
        ++ [Call.update 0 (good_tick 5)])).sprites.length = 12 := by
  have hlen : running.sprites.length = 6 := by rw [running_sprites]; rfl
  have hre : reopened.sprites.length = 6 := by rw [reopened_members.2.2.2.1]; exact hlen
  have h12 : (reopened.update 0 (good_tick 5)).sprites.length = 12 := by
    rw [reopened_update]
    show (reopened.create_sprites.restart_game).sprites.length = 12
    rw [restart_game_length, create_sprites_length, hre]
  refine ⟨construct_to_reopened, running_flags.1, hlen, rfl, hre, ?_, h12, ?_⟩
  · rw [reopened_update]
  · rw [run_append, construct_to_reopened]
    exact h12

end Flappy
